import Mathlib

/-!
Shallow embedding of `utils/supabase_utils.py` from the banzuke-app
repository, together with theorems settling the spec claims about it.

The module has two operations:
* `supabase()` — a memoized (`lru_cache(maxsize=1)`) factory for a
  database client, reading credentials from environment variables;
* `http_session(total_retries, backoff_factor)` — a factory building a
  fresh `requests.Session` per call, mounting one `HTTPAdapter`
  configured with a `Retry` policy on both URL schemes.

Python object identity is modelled with an allocation counter: every
object construction consumes a fresh natural-number id, so two objects
are identity-equal exactly when their ids (hence the whole structures)
are equal.  The process environment is a partial map from variable
names to strings, mirroring `os.getenv` returning `None` for absent
variables; Python truthiness of the result (`if key:`) is `truthy`.
-/

namespace Banzuke

/-- The process environment as seen through `os.getenv`: absent
variables map to `none`. -/
abbrev Env := String → Option String

/-- Python truthiness of an `os.getenv` result: `None` and the empty
string are falsy, every non-empty string is truthy. -/
def truthy : Option String → Bool
  | none => false
  | some s => !s.isEmpty

/-- `SUPABASE_URL_ENV = "SUPABASE_URL"` from the source. -/
def SUPABASE_URL_ENV : String := "SUPABASE_URL"

/-- `SUPABASE_KEY_ENV_FALLBACKS = ("SUPABASE_SERVICE_ROLE_KEY", "SUPABASE_KEY")`
from the source. -/
def SUPABASE_KEY_ENV_FALLBACKS : List String :=
  ["SUPABASE_SERVICE_ROLE_KEY", "SUPABASE_KEY"]

/-- The `for env_name in SUPABASE_KEY_ENV_FALLBACKS` loop of
`supabase()`: `key = os.getenv(env_name); if key: break`.  The second
argument is the value of `key` entering the loop iteration; the result
is the value of `key` after the loop. -/
def resolveKeyLoop (env : Env) : List String → Option String → Option String
  | [], key => key
  | n :: rest, _ =>
    let key := env n
    if truthy key then key else resolveKeyLoop env rest key

/-- The resolved key after running the fallback loop of `supabase()`
starting from `key = None`. -/
def resolveKey (env : Env) : Option String :=
  resolveKeyLoop env SUPABASE_KEY_ENV_FALLBACKS none

/-- A `supabase-py` client as produced by `create_client(url, key)`:
bound to the credential pair, with an allocation id for identity. -/
structure Client where
  url : String
  key : String
  objId : Nat
deriving DecidableEq

/-- `create_client(url, key)` allocating the object id `fresh`. -/
def create_client (url key : String) (fresh : Nat) : Client :=
  { url := url, key := key, objId := fresh }

/-- The exact message of the `RuntimeError` raised by `supabase()`. -/
def errorMessage : String :=
  "Missing Supabase credentials – set SUPABASE_URL and a service/anon key"

/-- The mutable per-process state relevant to `supabase()`: the
`lru_cache(maxsize=1)` slot (empty or holding the one cached client)
and the allocation counter for object identity. -/
structure ProcState where
  cache : Option Client
  nextId : Nat
deriving DecidableEq

/-- State of a freshly started process: nothing cached yet. -/
def initState : ProcState := { cache := none, nextId := 0 }

/-- `supabase()` under `@lru_cache(maxsize=1)`.  On a cache hit the
wrapped body does not run at all (the environment is not read); on a
miss the body reads `SUPABASE_URL`, resolves the key through the
fallback loop, raises `RuntimeError` if `not url or not key`, and
otherwise constructs the client and caches it.  A raised error leaves
the cache slot empty (Python's `lru_cache` does not cache exceptions). -/
def supabase (env : Env) (st : ProcState) : Except String Client × ProcState :=
  match st.cache with
  | some c => (Except.ok c, st)
  | none =>
    let url := env SUPABASE_URL_ENV
    let key := resolveKey env
    if truthy url && truthy key then
      let c := create_client (url.getD "") (key.getD "") st.nextId
      (Except.ok c, { cache := some c, nextId := st.nextId + 1 })
    else
      (Except.error errorMessage, st)

/-- `Retry(total=…, backoff_factor=…, status_forcelist=…, allowed_methods=…)`
from `urllib3`.  The back-off factor is only stored, never computed
with, so it is embedded as a rational (1.25 is exactly representable). -/
structure Retry where
  total : Int
  backoff_factor : ℚ
  status_forcelist : List Nat
  allowed_methods : List String
deriving DecidableEq

/-- `HTTPAdapter(max_retries=…)`, with an allocation id for identity. -/
structure HTTPAdapter where
  max_retries : Retry
  objId : Nat
deriving DecidableEq

/-- A `requests.Session`: an allocation id for identity plus the table
of mounted adapters keyed by URL-scheme prefixes. -/
structure Session where
  objId : Nat
  mounts : List (String × HTTPAdapter)
deriving DecidableEq

/-- `session.get_adapter`-style lookup of the adapter mounted for a
given scheme. -/
def Session.getAdapter (s : Session) (scheme : String) : Option HTTPAdapter :=
  (s.mounts.find? (fun m => m.1 == scheme)).map (fun m => m.2)

/-- `_STATUS_FORCELIST = (429, 500, 502, 503, 504)` from the source. -/
def STATUS_FORCELIST : List Nat := [429, 500, 502, 503, 504]

/-- The `allowed_methods` tuple passed to `Retry` in `http_session`. -/
def ALLOWED_METHODS : List String :=
  ["HEAD", "GET", "OPTIONS", "POST", "PUT", "DELETE", "PATCH"]

/-- `http_session(total_retries, backoff_factor)`: builds a fresh
`requests.Session`, one `Retry` strategy, one `HTTPAdapter` wrapping
it, and mounts that single adapter for both the secure and the
insecure scheme.  Two objects are allocated per call (session and
adapter), so the counter advances by two. -/
def http_session (total_retries : Int) (backoff_factor : ℚ) (fresh : Nat) :
    Session × Nat :=
  let retry_strategy : Retry :=
    { total := total_retries
      backoff_factor := backoff_factor
      status_forcelist := STATUS_FORCELIST
      allowed_methods := ALLOWED_METHODS }
  let adapter : HTTPAdapter := { max_retries := retry_strategy, objId := fresh + 1 }
  let session : Session :=
    { objId := fresh
      mounts := [("https://", adapter), ("http://", adapter)] }
  (session, fresh + 2)

/-- The default value `5` of the `total_retries` parameter in the
source signature of `http_session`. -/
def DEFAULT_TOTAL_RETRIES : Int := 5

/-- The default value `1.25` of the `backoff_factor` parameter in the
source signature of `http_session`. -/
def DEFAULT_BACKOFF_FACTOR : ℚ := 1.25

/-- `http_session()` called with no arguments: both parameters take
their declared defaults. -/
def http_session_noargs (fresh : Nat) : Session × Nat :=
  http_session DEFAULT_TOTAL_RETRIES DEFAULT_BACKOFF_FACTOR fresh

/-- Boolean test that the list `pat` occurs at the head of `s`. -/
def listHasPrefixB : List Char → List Char → Bool
  | _, [] => true
  | [], _ :: _ => false
  | a :: as, b :: bs => a == b && listHasPrefixB as bs

/-- Boolean test that the list `pat` occurs somewhere inside `s`. -/
def listContainsB : List Char → List Char → Bool
  | [], pat => pat.isEmpty
  | a :: as, pat => listHasPrefixB (a :: as) pat || listContainsB as pat

/-- Boolean substring test on strings, structurally recursive so it
evaluates in the kernel. -/
def strContains (s pat : String) : Bool := listContainsB s.toList pat.toList

/-- A concrete environment with no variables set. -/
def envEmpty : Env := fun _ => none

/-- A concrete environment with the URL and the primary key variable
set (fallback absent). -/
def envPrimary : Env := fun n =>
  if n = "SUPABASE_URL" then some "https://example.supabase.co"
  else if n = "SUPABASE_SERVICE_ROLE_KEY" then some "service-role-secret"
  else none

/-- A concrete environment with the URL set and only the fallback key
variable set (primary absent). -/
def envFallbackOnly : Env := fun n =>
  if n = "SUPABASE_URL" then some "https://example.supabase.co"
  else if n = "SUPABASE_KEY" then some "anon-secret"
  else none

/-- A concrete environment where the primary key variable is set to the
empty string and the fallback is set non-empty. -/
def envPrimaryEmpty : Env := fun n =>
  if n = "SUPABASE_URL" then some "https://example.supabase.co"
  else if n = "SUPABASE_SERVICE_ROLE_KEY" then some ""
  else if n = "SUPABASE_KEY" then some "anon-secret"
  else none

/-- Unfolding of the key-fallback loop over its two-element list: the
primary variable wins when truthy, otherwise the loop result is
whatever the fallback variable holds. -/
lemma resolveKey_eq (env : Env) :
    resolveKey env =
      if truthy (env "SUPABASE_SERVICE_ROLE_KEY") then env "SUPABASE_SERVICE_ROLE_KEY"
      else env "SUPABASE_KEY" := by
  simp [resolveKey, resolveKeyLoop, SUPABASE_KEY_ENV_FALLBACKS]

/-- On a cache hit, `lru_cache` returns the stored client without
running the body: the state is untouched and the environment unread. -/
lemma supabase_cache_hit (env : Env) (st : ProcState) (c : Client)
    (h : st.cache = some c) : supabase env st = (Except.ok c, st) := by
  unfold supabase
  rw [h]

/-- On a cache miss with truthy URL and resolved key, the body
constructs a fresh client, caches it, and returns it. -/
lemma supabase_miss_ok (env : Env) (st : ProcState) (h0 : st.cache = none)
    (hurl : truthy (env SUPABASE_URL_ENV) = true)
    (hkey : truthy (resolveKey env) = true) :
    supabase env st =
      (Except.ok (create_client ((env SUPABASE_URL_ENV).getD "")
          ((resolveKey env).getD "") st.nextId),
       { cache := some (create_client ((env SUPABASE_URL_ENV).getD "")
            ((resolveKey env).getD "") st.nextId),
         nextId := st.nextId + 1 }) := by
  unfold supabase
  rw [h0]
  simp [hurl, hkey]

/-- On a cache miss with a falsy URL or a falsy resolved key, the body
raises the `RuntimeError` and the state is unchanged (the exception is
not cached). -/
lemma supabase_miss_err (env : Env) (st : ProcState) (h0 : st.cache = none)
    (h : truthy (env SUPABASE_URL_ENV) = false ∨ truthy (resolveKey env) = false) :
    supabase env st = (Except.error errorMessage, st) := by
  unfold supabase
  rw [h0]
  rcases h with h | h <;> simp [h]

/-- C1: with the URL variable and at least one key variable set
non-empty, the first call to `supabase()` returns a client, and every
subsequent call — under any later environment, so without re-reading
environment variables — returns the identity-same instance with the
process state unchanged (the client is not reconstructed). -/
theorem supabase_singleton (env : Env) (st : ProcState)
    (h0 : st.cache = none)
    (hurl : truthy (env SUPABASE_URL_ENV) = true)
    (hkey : truthy (resolveKey env) = true) :
    ∃ (c : Client) (st2 : ProcState),
      supabase env st = (Except.ok c, st2) ∧
      ∀ env2 : Env, supabase env2 st2 = (Except.ok c, st2) := by
  refine ⟨_, _, supabase_miss_ok env st h0 hurl hkey, ?_⟩
  intro env2
  exact supabase_cache_hit env2 _ _ rfl

/-- Witness for C1 at a concrete environment holding the URL and the
primary key variable, starting from a fresh process state. -/
theorem supabase_singleton_witness :
    ∃ (c : Client) (st2 : ProcState),
      supabase envPrimary initState = (Except.ok c, st2) ∧
      ∀ env2 : Env, supabase env2 st2 = (Except.ok c, st2) :=
  supabase_singleton envPrimary initState rfl (by decide) (by decide)

/-- C2: in a fresh process, if the URL variable is absent or empty, or
both key variables are absent or empty, `supabase()` raises the
configuration error instead of returning a client. -/
theorem supabase_missing_creds (env : Env) (st : ProcState)
    (h0 : st.cache = none)
    (h : truthy (env SUPABASE_URL_ENV) = false ∨
         (truthy (env "SUPABASE_SERVICE_ROLE_KEY") = false ∧
          truthy (env "SUPABASE_KEY") = false)) :
    supabase env st = (Except.error errorMessage, st) := by
  apply supabase_miss_err env st h0
  rcases h with h | ⟨h1, h2⟩
  · exact Or.inl h
  · right
    rw [resolveKey_eq, h1]
    simpa using h2

/-- Witness for C2 at the empty environment and a fresh process state. -/
theorem supabase_missing_creds_witness :
    supabase envEmpty initState = (Except.error errorMessage, initState) :=
  supabase_missing_creds envEmpty initState rfl (Or.inl (by decide))

/-- C3: if credentials are absent at the first call, construction fails
and the memoized state is unchanged (no client cached); a subsequent
call with credentials present retries construction and succeeds,
caching the client; and whenever a client is cached, every call
returns it with the state unchanged, so the client is constructed at
most once per process. -/
theorem supabase_retry_after_failure (env1 env2 : Env) (st : ProcState)
    (h0 : st.cache = none)
    (hfail : truthy (env1 SUPABASE_URL_ENV) = false ∨
             truthy (resolveKey env1) = false)
    (hurl : truthy (env2 SUPABASE_URL_ENV) = true)
    (hkey : truthy (resolveKey env2) = true) :
    supabase env1 st = (Except.error errorMessage, st) ∧
    (∃ (c : Client) (st2 : ProcState),
        supabase env2 st = (Except.ok c, st2) ∧ st2.cache = some c) ∧
    (∀ (env3 : Env) (st3 : ProcState) (c : Client), st3.cache = some c →
        supabase env3 st3 = (Except.ok c, st3)) := by
  refine ⟨supabase_miss_err env1 st h0 hfail,
    ⟨_, _, supabase_miss_ok env2 st h0 hurl hkey, rfl⟩, ?_⟩
  intro env3 st3 c h
  exact supabase_cache_hit env3 st3 c h

/-- Witness for C3: the first call under the empty environment fails
leaving the fresh state unchanged, and a retry under an environment
with credentials succeeds. -/
theorem supabase_retry_after_failure_witness :
    supabase envEmpty initState = (Except.error errorMessage, initState) ∧
    (∃ (c : Client) (st2 : ProcState),
        supabase envPrimary initState = (Except.ok c, st2) ∧ st2.cache = some c) ∧
    (∀ (env3 : Env) (st3 : ProcState) (c : Client), st3.cache = some c →
        supabase env3 st3 = (Except.ok c, st3)) :=
  supabase_retry_after_failure envEmpty envPrimary initState rfl
    (Or.inl (by decide)) (by decide) (by decide)

/-- C4: the key is resolved by checking `SUPABASE_SERVICE_ROLE_KEY`
first and `SUPABASE_KEY` second, taking the first non-empty value: a
truthy primary wins regardless of the fallback, and with the primary
absent or empty a truthy fallback is used. -/
theorem supabase_key_precedence (env : Env) :
    (truthy (env "SUPABASE_SERVICE_ROLE_KEY") = true →
      resolveKey env = env "SUPABASE_SERVICE_ROLE_KEY") ∧
    (truthy (env "SUPABASE_SERVICE_ROLE_KEY") = false →
      truthy (env "SUPABASE_KEY") = true →
      resolveKey env = env "SUPABASE_KEY") := by
  constructor
  · intro h
    rw [resolveKey_eq, h]
    simp
  · intro h _
    rw [resolveKey_eq, h]
    simp

/-- Witness for C4 at three concrete environments: primary set with
fallback absent, primary absent with fallback set, and primary empty
with fallback set. -/
theorem supabase_key_precedence_witness :
    resolveKey envPrimary = envPrimary "SUPABASE_SERVICE_ROLE_KEY" ∧
    resolveKey envFallbackOnly = envFallbackOnly "SUPABASE_KEY" ∧
    resolveKey envPrimaryEmpty = envPrimaryEmpty "SUPABASE_KEY" :=
  ⟨(supabase_key_precedence envPrimary).1 (by decide),
   (supabase_key_precedence envFallbackOnly).2 (by decide) (by decide),
   (supabase_key_precedence envPrimaryEmpty).2 (by decide) (by decide)⟩

/-- C5 counterexample: at the empty environment `supabase()` raises
with the fixed message, and that message contains the URL variable
name `SUPABASE_URL` but contains neither key variable name
(`SUPABASE_SERVICE_ROLE_KEY`, `SUPABASE_KEY`), so the raised error
does not name the key environment variable as the claim states. -/
theorem supabase_error_message_counterexample :
    (supabase envEmpty initState).1 = Except.error errorMessage ∧
    strContains errorMessage "SUPABASE_URL" = true ∧
    strContains errorMessage "SUPABASE_SERVICE_ROLE_KEY" = false ∧
    strContains errorMessage "SUPABASE_KEY" = false :=
  ⟨rfl, by decide, by decide, by decide⟩

/-- C5 (amended): whenever `supabase()` raises the configuration
error, the error carries the fixed human-readable message, which names
the URL environment variable `SUPABASE_URL` and refers to the key only
generically as a service/anon key, naming neither key environment
variable. -/
theorem supabase_error_message (env : Env) (st : ProcState)
    (h0 : st.cache = none)
    (h : truthy (env SUPABASE_URL_ENV) = false ∨ truthy (resolveKey env) = false) :
    supabase env st = (Except.error errorMessage, st) ∧
    strContains errorMessage SUPABASE_URL_ENV = true ∧
    strContains errorMessage "service/anon key" = true ∧
    strContains errorMessage "SUPABASE_SERVICE_ROLE_KEY" = false ∧
    strContains errorMessage "SUPABASE_KEY" = false :=
  ⟨supabase_miss_err env st h0 h, by decide, by decide, by decide, by decide⟩

/-- Witness for the amended C5 at the empty environment and a fresh
process state. -/
theorem supabase_error_message_witness :
    supabase envEmpty initState = (Except.error errorMessage, initState) ∧
    strContains errorMessage SUPABASE_URL_ENV = true ∧
    strContains errorMessage "service/anon key" = true ∧
    strContains errorMessage "SUPABASE_SERVICE_ROLE_KEY" = false ∧
    strContains errorMessage "SUPABASE_KEY" = false :=
  supabase_error_message envEmpty initState rfl (Or.inl (by decide))

/-- C6: two calls to `http_session` in sequence (with any arguments)
return sessions with distinct allocation ids, i.e. distinct, never
cached instances. -/
theorem http_session_distinct_instances (t1 t2 : Int) (b1 b2 : ℚ) (fresh : Nat) :
    ((http_session t1 b1 fresh).1).objId ≠
      ((http_session t2 b2 (http_session t1 b1 fresh).2).1).objId := by
  simp [http_session]

/-- C7: the session built by `http_session total_retries
backoff_factor` carries, on both schemes, a retry policy whose total
is `total_retries`, whose back-off factor is `backoff_factor`, whose
retryable status codes are exactly 429, 500, 502, 503, 504, and whose
retryable methods are exactly HEAD, GET, OPTIONS, POST, PUT, DELETE,
PATCH. -/
theorem http_session_retry_policy (t : Int) (b : ℚ) (fresh : Nat) :
    ∃ a : HTTPAdapter,
      ((http_session t b fresh).1).getAdapter "https://" = some a ∧
      ((http_session t b fresh).1).getAdapter "http://" = some a ∧
      a.max_retries.total = t ∧
      a.max_retries.backoff_factor = b ∧
      (∀ c : Nat, c ∈ a.max_retries.status_forcelist ↔
        (c = 429 ∨ c = 500 ∨ c = 502 ∨ c = 503 ∨ c = 504)) ∧
      (∀ m : String, m ∈ a.max_retries.allowed_methods ↔
        (m = "HEAD" ∨ m = "GET" ∨ m = "OPTIONS" ∨ m = "POST" ∨
         m = "PUT" ∨ m = "DELETE" ∨ m = "PATCH")) := by
  refine ⟨_, rfl, rfl, rfl, rfl, ?_, ?_⟩
  · intro c
    simp [http_session, STATUS_FORCELIST]
  · intro m
    simp [http_session, ALLOWED_METHODS]

/-- C8: every session built by `http_session` has an adapter mounted
for the secure scheme and an adapter mounted for the insecure scheme,
and the retry configurations attached for the two schemes are equal. -/
theorem http_session_uniform_mounting (t : Int) (b : ℚ) (fresh : Nat) :
    ∃ a1 a2 : HTTPAdapter,
      ((http_session t b fresh).1).getAdapter "https://" = some a1 ∧
      ((http_session t b fresh).1).getAdapter "http://" = some a2 ∧
      a1.max_retries = a2.max_retries :=
  ⟨_, _, rfl, rfl, rfl⟩

/-- C9: the declared defaults of `http_session` are a total retry
count of 5 and a back-off factor of 1.25; calling with no arguments
produces a session whose mounted retry policy reports those values. -/
theorem http_session_default_arguments (fresh : Nat) :
    DEFAULT_TOTAL_RETRIES = 5 ∧ DEFAULT_BACKOFF_FACTOR = 5 / 4 ∧
    ∃ a : HTTPAdapter,
      ((http_session_noargs fresh).1).getAdapter "https://" = some a ∧
      a.max_retries.total = 5 ∧ a.max_retries.backoff_factor = 1.25 := by
  refine ⟨rfl, by norm_num [DEFAULT_BACKOFF_FACTOR], _, rfl, rfl, ?_⟩
  norm_num [http_session_noargs, http_session, DEFAULT_BACKOFF_FACTOR]

/-- C10: within one session built by `http_session`, the adapter
mounted for the secure scheme and the adapter mounted for the insecure
scheme are one and the same object (same allocation id): a single
shared adapter, wrapping a single retry policy, serves both schemes. -/
theorem http_session_shared_adapter (t : Int) (b : ℚ) (fresh : Nat) :
    ∃ a : HTTPAdapter,
      ((http_session t b fresh).1).getAdapter "https://" = some a ∧
      ((http_session t b fresh).1).getAdapter "http://" = some a :=
  ⟨_, rfl, rfl⟩

end Banzuke
